import Mathlib

/-!
Shallow embedding of `vscode-docker`'s Azure registry tree nodes
(`src/explorer/models/azureRegistryNodes.ts`) and of the batch container
restart command (`restartContainer`), together with proofs about their
behaviour.

The restart command installs, for each selected container, one engine
callback closing over a shared counter and the aggregate promise.  We model
an execution as the fold of the callback body over the list of callback
outcomes in arrival order; side effects (error message, refresh trigger,
promise settlement calls) are recorded in an event trace.
-/

namespace VsDocker

/-- Events observed while the restart batch runs, in chronological order:
`showError msg` is `vscode.window.showErrorMessage(err.message)`,
`refresh` is `dockerExplorerProvider.refreshContainers()`,
`reject` / `resolve` are the calls on the aggregate promise executor. -/
inductive RestartEvent where
  | showError (msg : String)
  | refresh
  | reject
  | resolve
deriving DecidableEq, Repr

/-- The mutable state of one `restartContainer` invocation:
`containerCounter` from the source, plus the trace of observable events. -/
structure RestartState where
  containerCounter : Nat
  trace : List RestartEvent
deriving DecidableEq, Repr

/-- The body of the engine callback installed for each container:

```
docker.getContainer(container.Id).restart((err, _data) => {
  containerCounter++;
  if (err) {
    vscode.window.showErrorMessage(err.message);
    dockerExplorerProvider.refreshContainers();
    reject();
  }
  if (containerCounter === numContainers) {
    dockerExplorerProvider.refreshContainers();
    resolve();
  }
});
```

`err` is `none` on success and `some msg` on failure (carrying
`err.message`).  Note there is no early return after `reject()`. -/
def restartCallback (numContainers : Nat) (err : Option String)
    (s : RestartState) : RestartState :=
  let s1 : RestartState := { s with containerCounter := s.containerCounter + 1 }
  let s2 : RestartState :=
    match err with
    | some msg =>
        { s1 with trace := s1.trace ++ [.showError msg, .refresh, .reject] }
    | none => s1
  if s2.containerCounter = numContainers then
    { s2 with trace := s2.trace ++ [.refresh, .resolve] }
  else
    s2

/-- State reached after the callbacks in `arrived` have fired (in arrival
order) for a batch of `numContainers` issued restart calls; the remaining
callbacks are still in flight. -/
def runRestartPartial (numContainers : Nat) (arrived : List (Option String)) :
    RestartState :=
  arrived.foldl (fun s err => restartCallback numContainers err s)
    { containerCounter := 0, trace := [] }

/-- A complete run of the batch: `containersToRestart.forEach` issues one
restart call per container (`numContainers = containersToRestart.length`),
and `outcomes` lists every callback's result in arrival order, one per
issued call. -/
def runRestart (outcomes : List (Option String)) : RestartState :=
  runRestartPartial outcomes.length outcomes

/-- `true` exactly on the events that settle the aggregate promise. -/
def isSettle : RestartEvent → Bool
  | .reject => true
  | .resolve => true
  | _ => false

/-- The first settlement event of a trace.  A promise settles at most once:
the first `resolve`/`reject` call determines the outcome, later calls are
no-ops.  `none` means the promise never settles. -/
def firstSettle : List RestartEvent → Option RestartEvent
  | [] => none
  | e :: rest => if isSettle e then some e else firstSettle rest

/-- Number of `refreshContainers()` invocations recorded in the state. -/
def countRefresh (s : RestartState) : Nat :=
  s.trace.count RestartEvent.refresh

/-- The events a single callback contributes from its error branch. -/
def errEvents : Option String → List RestartEvent
  | none => []
  | some msg => [.showError msg, .refresh, .reject]

/-! ## The Azure registry node model -/

/-- Azure account/session handle (external `azure-account.api`); its
contents are opaque to the file under verification. -/
structure AzureAccount where
  accountId : String
deriving DecidableEq, Repr

/-- Subscription descriptor from the resource-management SDK. -/
structure Subscription where
  subscriptionId : String
deriving DecidableEq, Repr

/-- Registry descriptor from the container-registry SDK; `loginServer` is
the field `getLoginServer` reads. -/
structure Registry where
  name : String
  loginServer : String
deriving DecidableEq, Repr

/-- Repository model (`utils/Azure/models/repository`), as consumed here:
a name plus the registry it lives in. -/
structure Repository where
  name : String
  registry : Registry
deriving DecidableEq, Repr

/-- Timestamp standing in for a JS `Date`. -/
structure DateJs where
  ms : Int
deriving DecidableEq, Repr

/-- Image descriptor (`utils/Azure/models/image`), restricted to the fields
`AzureRepositoryNode.getChildren` consumes. -/
structure AzureImage where
  subscription : Subscription
  registry : Registry
  repository : Repository
  tag : String
  created : DateJs
deriving DecidableEq, Repr

/-- Modelled from the spec: `getLoginServer` (`utils/nonNull`, not under
src) returns the registry's login server URL. -/
def getLoginServer (r : Registry) : String := r.loginServer

/-- `AzureImageTagNode.getImageNameWithTag`: the template
`repositoryName:tag`. -/
def getImageNameWithTag (repositoryName : String) (tag : String) : String :=
  repositoryName ++ ":" ++ tag

/-- `AzureRegistryNode`'s constructor fields.  `azureAccount` is optional
because the source guards on its falsiness before listing repositories. -/
structure AzureRegistryNode where
  label : String
  azureAccount : Option AzureAccount
  registry : Registry
  subscription : Subscription
deriving DecidableEq, Repr

/-- Modelled from the spec: `TaskRootNode` (`taskNode.ts`, not under src)
holds the arguments of the call site
`new TaskRootNode("Tasks", element.azureAccount, element.subscription,
element.registry)`. -/
structure TaskRootNode where
  label : String
  azureAccount : Option AzureAccount
  subscription : Subscription
  registry : Registry
deriving DecidableEq, Repr

/-- The node hierarchy (`NodeBase` and the concrete classes of the file).
Repository and image-tag nodes hold a `parent : NodeBase` back-reference,
so they are constructors of the recursive type; their fields appear in the
constructor order of the source classes. -/
inductive NodeBase where
  | azureRegistry (n : AzureRegistryNode)
  | taskRoot (n : TaskRootNode)
  | azureRepository (label : String) (parent : NodeBase)
      (azureAccount : AzureAccount) (subscription : Subscription)
      (registry : Registry) (repositoryName : String)
  | azureImageTag (azureAccount : AzureAccount) (parent : NodeBase)
      (subscription : Subscription) (registry : Registry)
      (serverUrl : String) (repositoryName : String) (tag : String)
      (created : DateJs)
  | azureNotSignedIn
  | azureLoading
deriving DecidableEq, Repr

/-- `this.label`, as set by each class's `super(label)` call:
`AzureImageTagNode` passes `getImageNameWithTag(repositoryName, tag)`, the
sentinels pass fixed strings. -/
def NodeBase.labelOf : NodeBase → String
  | .azureRegistry n => n.label
  | .taskRoot n => n.label
  | .azureRepository label _ _ _ _ _ => label
  | .azureImageTag _ _ _ _ _ repositoryName tag _ =>
      getImageNameWithTag repositoryName tag
  | .azureNotSignedIn => "Sign in to Azure..."
  | .azureLoading => "Loading..."

/-- The `repositoryName` field, defined on the node kinds that declare one. -/
def NodeBase.repositoryNameOf : NodeBase → Option String
  | .azureRepository _ _ _ _ _ repositoryName => some repositoryName
  | .azureImageTag _ _ _ _ _ repositoryName _ _ => some repositoryName
  | _ => none

/-- The collapsible states used by the file. -/
inductive TreeItemCollapsibleState where
  | none
  | collapsed
  | expanded
deriving DecidableEq, Repr

/-- Light/dark icon path pair. -/
structure IconPath where
  light : String
  dark : String
deriving DecidableEq, Repr

/-- A command reference attached to a tree item. -/
structure CommandRef where
  title : String
  command : String
deriving DecidableEq, Repr

/-- The subset of `vscode.TreeItem` the file populates. -/
structure TreeItem where
  label : String
  collapsibleState : TreeItemCollapsibleState
  contextValue : Option String := none
  iconPath : Option IconPath := none
  command : Option CommandRef := none
deriving DecidableEq, Repr

/-- `path.flatten` over the three segments used for icon paths. -/
def pathJoin3 (a b c : String) : String := a ++ "/" ++ b ++ "/" ++ c

/-- `getTreeItem` for every node class of the file, in state-passing form:
the second component is the receiver after the call (no body assigns to
`this`, so the receiver comes back unchanged — the frame theorem states
exactly that).  `imagesPath` is the external asset-root constant and
`formatTag` the external label formatter from `commonRegistryUtils`;
`TaskRootNode.getTreeItem` lives outside src, so the task-root case yields
no item. -/
def NodeBase.getTreeItem (imagesPath : String)
    (formatTag : String → DateJs → String) :
    NodeBase → Option TreeItem × NodeBase
  | n@(.azureRegistry reg) =>
      (some { label := reg.label,
              collapsibleState := .collapsed,
              contextValue := some ("azureRegistryNode"),
              iconPath := some { light := pathJoin3 imagesPath ("light") ("Registry_16x.svg"),
                                 dark := pathJoin3 imagesPath ("dark") ("Registry_16x.svg") } }, n)
  | n@(.taskRoot _) => (none, n)
  | n@(.azureRepository label _ _ _ _ _) =>
      (some { label := label,
              collapsibleState := .collapsed,
              contextValue := some ("azureRepositoryNode"),
              iconPath := some { light := pathJoin3 imagesPath ("light") ("Repository_16x.svg"),
                                 dark := pathJoin3 imagesPath ("dark") ("Repository_16x.svg") } }, n)
  | n@(.azureImageTag _ _ _ _ _ repositoryName tag created) =>
      (some { label := formatTag (getImageNameWithTag repositoryName tag) created,
              collapsibleState := .none,
              contextValue := some ("azureImageTagNode") }, n)
  | n@(.azureNotSignedIn) =>
      (some { label := "Sign in to Azure...",
              collapsibleState := .none,
              contextValue := some ("azureNotSignedInNode"),
              command := some { title := "Sign in to Azure...",
                                command := "azure-account.login" } }, n)
  | n@(.azureLoading) =>
      (some { label := "Loading...",
              collapsibleState := .none,
              contextValue := some ("azureLoadingNode") }, n)

/-- `AzureRegistryNode.getChildren`.  `me` is the receiver (`this`) and
`element` the argument; the source reads `me.azureAccount` for the session
check and for the child nodes' account, and `element`'s fields otherwise.
The telemetry wrapper (`callWithTelemetryAndErrorHandling`) is the identity
on this pure model.  `getRepositoriesByRegistry` is the external listing
collaborator. -/
def AzureRegistryNode.getChildren
    (getRepositoriesByRegistry : Registry → List Repository)
    (me element : AzureRegistryNode) : List NodeBase :=
  let taskNode : NodeBase :=
    .taskRoot { label := "Tasks", azureAccount := element.azureAccount,
                subscription := element.subscription,
                registry := element.registry }
  let repoNodes : List NodeBase := [taskNode]
  match me.azureAccount with
  | none => []
  | some acct =>
      repoNodes ++
        (getRepositoriesByRegistry element.registry).map (fun repository =>
          .azureRepository repository.name (.azureRegistry element) acct
            element.subscription element.registry element.label)

/-- `AzureRepositoryNode.getChildren`.  `RepositoryCreate` models the
external `Repository.Create(registry, label)` lookup and
`getImagesByRepository` the external image listing; `element` must be a
repository node (the method is declared on that class), any other kind has
no children here. -/
def AzureRepositoryNode.getChildren
    (RepositoryCreate : Registry → String → Repository)
    (getImagesByRepository : Repository → List AzureImage)
    (element : NodeBase) : List NodeBase :=
  match element with
  | .azureRepository label _ azureAccount _ registry _ =>
      let repo := RepositoryCreate registry label
      let images := getImagesByRepository repo
      images.map (fun img =>
        .azureImageTag azureAccount element img.subscription img.registry
          (getLoginServer img.registry) img.repository.name img.tag
          img.created)
  | _ => []

/-! ## Lemmas about the restart coordinator -/

/-- Closed form of one callback invocation: the counter is incremented, the
error branch appends its three events, and the completion branch appends
`[refresh, resolve]` exactly when the incremented counter hits the total. -/
theorem restartCallback_eq (N : Nat) (err : Option String) (s : RestartState) :
    restartCallback N err s =
      { containerCounter := s.containerCounter + 1,
        trace := s.trace ++ errEvents err ++
          (if s.containerCounter + 1 = N then
            [RestartEvent.refresh, RestartEvent.resolve] else []) } := by
  cases err with
  | none =>
      by_cases h : s.containerCounter + 1 = N <;>
        simp [restartCallback, errEvents, h]
  | some msg =>
      by_cases h : s.containerCounter + 1 = N <;>
        simp [restartCallback, errEvents, h]

/-- Folding the callback over a run of successful callbacks that never
reaches the total leaves the trace untouched and adds their number to the
counter. -/
theorem foldl_restartCallback_success (N : Nat) :
    ∀ (pre : List (Option String)) (c : Nat) (tr : List RestartEvent),
      (∀ x ∈ pre, x = none) → c + pre.length < N →
      pre.foldl (fun s err => restartCallback N err s)
          { containerCounter := c, trace := tr } =
        { containerCounter := c + pre.length, trace := tr } := by
  intro pre
  induction pre with
  | nil => intro c tr _ _; simp
  | cons x rest ih =>
      intro c tr hall hlt
      have hx : x = none := hall x (by simp)
      subst hx
      have hne : ¬ (c + 1 = N) := by simp at hlt; omega
      have hstep : restartCallback N none
          { containerCounter := c, trace := tr } =
          { containerCounter := c + 1, trace := tr } := by
        rw [restartCallback_eq]; simp [errEvents, hne]
      have hrest : ∀ x ∈ rest, x = none := fun y hy => hall y (by simp [hy])
      have hlt2 : (c + 1) + rest.length < N := by simp at hlt; omega
      simp only [List.foldl_cons]
      rw [hstep, ih (c + 1) tr hrest hlt2]
      simp only [RestartState.mk.injEq, List.length_cons, and_true]
      omega

/-- Folding the callback over the remaining callbacks of a batch (their
count completes the total) appends every error block in arrival order and
then the completion events of the final callback. -/
theorem foldl_restartCallback_closed (N : Nat) :
    ∀ (rest : List (Option String)) (c : Nat) (tr : List RestartEvent),
      c + rest.length = N → rest ≠ [] →
      rest.foldl (fun s err => restartCallback N err s)
          { containerCounter := c, trace := tr } =
        { containerCounter := N,
          trace := tr ++ (rest.map errEvents).flatten ++
            [RestartEvent.refresh, RestartEvent.resolve] } := by
  intro rest
  induction rest with
  | nil => intro c tr _ hne; exact absurd rfl hne
  | cons x rest ih =>
      intro c tr htot _
      cases rest with
      | nil =>
          have hc : c + 1 = N := by simpa using htot
          have hstep : restartCallback N x
              { containerCounter := c, trace := tr } =
              { containerCounter := c + 1,
                trace := tr ++ errEvents x ++
                  [RestartEvent.refresh, RestartEvent.resolve] } := by
            rw [restartCallback_eq]; simp [hc]
          rw [List.foldl_cons, List.foldl_nil, hstep]
          simp [hc, List.append_assoc]
      | cons y rest2 =>
          have hne : ¬ (c + 1 = N) := by simp at htot; omega
          have htot2 : (c + 1) + (y :: rest2).length = N := by
            simp at htot ⊢; omega
          have hstep : restartCallback N x
              { containerCounter := c, trace := tr } =
              { containerCounter := c + 1, trace := tr ++ errEvents x } := by
            rw [restartCallback_eq]; simp [hne]
          rw [List.foldl_cons, hstep,
            ih (c + 1) (tr ++ errEvents x) htot2 (by simp)]
          simp [List.append_assoc]

/-- The complete run of a non-empty batch, in closed form: the counter ends
at the batch size and the trace is the concatenation of the per-callback
error blocks followed by the completion refresh and resolve of the final
callback. -/
theorem runRestart_eq (outcomes : List (Option String))
    (h : outcomes ≠ []) :
    runRestart outcomes =
      { containerCounter := outcomes.length,
        trace := (outcomes.map errEvents).flatten ++
          [RestartEvent.refresh, RestartEvent.resolve] } := by
  have := foldl_restartCallback_closed outcomes.length outcomes 0 []
    (by simp) h
  simpa [runRestart, runRestartPartial] using this

/-- If the head part of a trace already settles, appending more events does
not change the first settlement. -/
theorem firstSettle_append_of_some (a b : List RestartEvent)
    (e : RestartEvent) (h : firstSettle a = some e) :
    firstSettle (a ++ b) = some e := by
  induction a with
  | nil => simp [firstSettle] at h
  | cons x rest ih =>
      by_cases hx : isSettle x
      · simp [firstSettle, hx] at h ⊢; exact h
      · simp [firstSettle, hx] at h ⊢; exact ih h

/-- If the head part of a trace never settles, the first settlement comes
from the appended part. -/
theorem firstSettle_append_of_none (a b : List RestartEvent)
    (h : firstSettle a = none) :
    firstSettle (a ++ b) = firstSettle b := by
  induction a with
  | nil => simp
  | cons x rest ih =>
      by_cases hx : isSettle x
      · simp [firstSettle, hx] at h
      · simp [firstSettle, hx] at h ⊢; exact ih h

/-- Successful callbacks contribute no events at all. -/
theorem join_errEvents_of_success (outcomes : List (Option String))
    (h : ∀ x ∈ outcomes, x = none) :
    (outcomes.map errEvents).flatten = [] := by
  induction outcomes with
  | nil => simp
  | cons x rest ih =>
      have hx : x = none := h x (by simp)
      subst hx
      simp [errEvents, ih (fun y hy => h y (by simp [hy]))]

/-- If every callback before the first failing one succeeded, the trace of
the full batch settles as rejected: the reject of that failing callback is
the first settlement event, whatever events follow it. -/
theorem firstSettle_error_block (pre post : List (Option String))
    (msg : String) (h : ∀ x ∈ pre, x = none) :
    firstSettle (((pre ++ some msg :: post).map errEvents).flatten ++
        [RestartEvent.refresh, RestartEvent.resolve]) =
      some RestartEvent.reject := by
  rw [List.map_append, List.flatten_append, join_errEvents_of_success pre h]
  simp [errEvents, firstSettle, isSettle]

/-- Every further callback only appends events at the end of the trace. -/
theorem foldl_trace_extends (N : Nat) (more : List (Option String)) :
    ∀ s : RestartState, ∃ t,
      (more.foldl (fun s err => restartCallback N err s) s).trace =
        s.trace ++ t := by
  induction more with
  | nil => intro s; exact ⟨[], by simp⟩
  | cons x rest ih =>
      intro s
      obtain ⟨t, ht⟩ := ih (restartCallback N x s)
      refine ⟨errEvents x ++
        (if s.containerCounter + 1 = N then
          [RestartEvent.refresh, RestartEvent.resolve] else []) ++ t, ?_⟩
      rw [List.foldl_cons, ht, restartCallback_eq]
      simp [List.append_assoc]

/-- Once the aggregate has settled, the late callbacks of the batch cannot
change the settlement: the promise settles at most once. -/
theorem runRestartPartial_settle_stable (N : Nat)
    (arrived more : List (Option String)) (e : RestartEvent)
    (h : firstSettle (runRestartPartial N arrived).trace = some e) :
    firstSettle (runRestartPartial N (arrived ++ more)).trace = some e := by
  have hsplit : runRestartPartial N (arrived ++ more) =
      more.foldl (fun s err => restartCallback N err s)
        (runRestartPartial N arrived) := by
    simp [runRestartPartial, List.foldl_append]
  rw [hsplit]
  obtain ⟨t, ht⟩ := foldl_trace_extends N more (runRestartPartial N arrived)
  rw [ht]
  exact firstSettle_append_of_some _ _ _ h

/-! ## Claim theorems -/

/-- C3: if the resolved target set of containers is empty, `forEach` issues
no restart call, so no callback ever fires: the state stays at its initial
value, `refreshContainers` is never invoked, and neither `resolve` nor
`reject` is ever called — the aggregate future never settles. -/
theorem restart_emptyBatch_neverSettles :
    runRestart [] = { containerCounter := 0, trace := [] } ∧
    firstSettle (runRestart []).trace = none ∧
    countRefresh (runRestart []) = 0 := by
  exact ⟨rfl, rfl, rfl⟩

/-- C1 counterexample: a batch of two containers whose two restart calls
both succeed.  The aggregate resolves, but `refreshContainers` fires only
once (on the final callback), so it does not fire at least `N = 2` times as
the claim states. -/
theorem restart_allSuccess_refresh_cex :
    firstSettle (runRestart [none, none]).trace =
      some RestartEvent.resolve ∧
    countRefresh (runRestart [none, none]) = 1 ∧
    ¬ (2 ≤ countRefresh (runRestart [none, none])) := by
  refine ⟨rfl, rfl, ?_⟩
  decide

/-- C1 (amended): for every batch of `N = n + 1 ≥ 1` containers whose
restart calls all succeed, the aggregate future resolves exactly once and
`refreshContainers` fires exactly once — on the final (`N`-th) callback,
for batch completion — not once per successful callback. -/
theorem restart_allSuccess_resolves_once (n : Nat) :
    runRestart (List.replicate (n + 1) none) =
      { containerCounter := n + 1,
        trace := [RestartEvent.refresh, RestartEvent.resolve] } ∧
    firstSettle (runRestart (List.replicate (n + 1) none)).trace =
      some RestartEvent.resolve ∧
    countRefresh (runRestart (List.replicate (n + 1) none)) = 1 ∧
    (runRestart (List.replicate (n + 1) none)).trace.count
      RestartEvent.resolve = 1 := by
  have hne : List.replicate (n + 1) (none : Option String) ≠ [] := by simp
  have hflat :
      ((List.replicate (n + 1) (none : Option String)).map
        errEvents).flatten = [] :=
    join_errEvents_of_success _ (by simp)
  have h1 : runRestart (List.replicate (n + 1) none) =
      { containerCounter := n + 1,
        trace := [RestartEvent.refresh, RestartEvent.resolve] } := by
    rw [runRestart_eq _ hne, hflat]
    simp
  refine ⟨h1, ?_, ?_, ?_⟩ <;> rw [h1] <;> rfl

/-- C10: when the failing restart callback is also the `N`-th (last)
observed callback, the error branch is not followed by an early return:
that single callback records the error message, refreshes, rejects, then
refreshes again and calls `resolve` after `reject`; `refreshContainers`
fires twice inside it and the aggregate still settles as rejected (the
first settlement event is the `reject`). -/
theorem restart_lastCallbackError (n : Nat) (msg : String) :
    runRestart (List.replicate n none ++ [some msg]) =
      { containerCounter := n + 1,
        trace := [RestartEvent.showError msg, RestartEvent.refresh,
          RestartEvent.reject, RestartEvent.refresh,
          RestartEvent.resolve] } ∧
    firstSettle (runRestart (List.replicate n none ++ [some msg])).trace =
      some RestartEvent.reject ∧
    countRefresh (runRestart (List.replicate n none ++ [some msg])) = 2 := by
  have hne : List.replicate n (none : Option String) ++ [some msg] ≠ [] := by
    simp
  have hflat :
      ((List.replicate n (none : Option String)).map errEvents).flatten =
        [] :=
    join_errEvents_of_success _ (by simp)
  have h1 : runRestart (List.replicate n none ++ [some msg]) =
      { containerCounter := n + 1,
        trace := [RestartEvent.showError msg, RestartEvent.refresh,
          RestartEvent.reject, RestartEvent.refresh,
          RestartEvent.resolve] } := by
    rw [runRestart_eq _ hne, List.map_append, List.flatten_append, hflat]
    simp [errEvents]
  refine ⟨h1, ?_, ?_⟩ <;> rw [h1] <;> rfl

/-- C4: a failing restart callback increments the counter, then surfaces
the error message, then triggers `refreshContainers`, then rejects — in
that order (first conjunct, the callback's exact effect).  A batch whose
first failure is preceded only by successes settles as rejected (second
conjunct), and it is already settled as rejected the moment the failing
callback runs, with the remaining `post.length` callbacks still in flight
(third conjunct): the aggregate does not wait for them and, the first
settlement event being the `reject`, it settles as rejected exactly once. -/
theorem restart_error_failFast (pre post : List (Option String))
    (msg : String) (s : RestartState) (N : Nat)
    (hpre : ∀ x ∈ pre, x = none) :
    restartCallback N (some msg) s =
      { containerCounter := s.containerCounter + 1,
        trace := s.trace ++ [RestartEvent.showError msg,
            RestartEvent.refresh, RestartEvent.reject] ++
          (if s.containerCounter + 1 = N then
            [RestartEvent.refresh, RestartEvent.resolve] else []) } ∧
    firstSettle (runRestart (pre ++ some msg :: post)).trace =
      some RestartEvent.reject ∧
    firstSettle (runRestartPartial (pre.length + 1 + post.length)
        (pre ++ [some msg])).trace = some RestartEvent.reject := by
  refine ⟨restartCallback_eq N (some msg) s, ?_, ?_⟩
  · rw [runRestart_eq _ (by simp)]
    exact firstSettle_error_block pre post msg hpre
  · have h3 : runRestartPartial (pre.length + 1 + post.length)
        (pre ++ [some msg]) =
        restartCallback (pre.length + 1 + post.length) (some msg)
          { containerCounter := pre.length, trace := [] } := by
      simp only [runRestartPartial, List.foldl_append, List.foldl_cons,
        List.foldl_nil]
      rw [foldl_restartCallback_success (pre.length + 1 + post.length)
        pre 0 [] hpre (by omega)]
      simp
    rw [h3, restartCallback_eq]
    by_cases h : pre.length + 1 = pre.length + 1 + post.length <;>
      simp [h, firstSettle, isSettle, errEvents]

/-- Witness for the fail-fast theorem: a batch of three containers whose
second callback fails while the first succeeded and the third is still in
flight. -/
theorem restart_error_failFast_wit :
    (restartCallback 3 (some ("boom"))
        { containerCounter := 0, trace := [] } =
      { containerCounter := 0 + 1,
        trace := [] ++ [RestartEvent.showError ("boom"),
            RestartEvent.refresh, RestartEvent.reject] ++
          (if 0 + 1 = 3 then
            [RestartEvent.refresh, RestartEvent.resolve] else []) }) ∧
    firstSettle (runRestart ([none] ++ some ("boom") :: [none])).trace =
      some RestartEvent.reject ∧
    firstSettle (runRestartPartial 3
        ([none] ++ [some ("boom")])).trace = some RestartEvent.reject :=
  restart_error_failFast [none] [none] ("boom")
    { containerCounter := 0, trace := [] } 3 (by decide)

/-- C2 (code bug): `AzureRegistryNode.getChildren` passes `element.label` —
the registry node's label — as the constructor argument named
`repositoryName`, while the listed repository's own name only becomes the
node's label.  For a registry labelled `registryA` whose listing returns
the single repository `app`, the created repository node carries
`repositoryName = "registryA"`, not `"app"`. -/
theorem registry_children_repositoryName_bug :
    let listing : Registry → List Repository :=
      fun r => [{ name := "app", registry := r }]
    let me : AzureRegistryNode :=
      { label := "registryA",
        azureAccount := some { accountId := "acct" },
        registry := { name := "registryA",
                      loginServer := "registrya.azurecr.io" },
        subscription := { subscriptionId := "sub" } }
    (AzureRegistryNode.getChildren listing me me).map
        NodeBase.repositoryNameOf = [none, some ("registryA")] ∧
    (AzureRegistryNode.getChildren listing me me).map NodeBase.labelOf =
      ["Tasks", "app"] ∧
    ("registryA" : String) ≠ "app" := by
  intro listing me
  exact ⟨rfl, rfl, by decide⟩

/-- C5: for a registry node with an available account/session, the child
list is exactly the synthetic task-root node followed by one repository
node per listed repository, in the listing collaborator's return order —
`k + 1` nodes for `k` repositories. -/
theorem registry_children_structure
    (getRepositoriesByRegistry : Registry → List Repository)
    (me element : AzureRegistryNode) (acct : AzureAccount)
    (h : me.azureAccount = some acct) :
    AzureRegistryNode.getChildren getRepositoriesByRegistry me element =
      NodeBase.taskRoot
          { label := "Tasks",
            azureAccount := element.azureAccount,
            subscription := element.subscription,
            registry := element.registry } ::
        (getRepositoriesByRegistry element.registry).map (fun repository =>
          NodeBase.azureRepository repository.name
            (NodeBase.azureRegistry element) acct element.subscription
            element.registry element.label) ∧
    (AzureRegistryNode.getChildren getRepositoriesByRegistry me
        element).length =
      (getRepositoriesByRegistry element.registry).length + 1 := by
  have h1 : AzureRegistryNode.getChildren getRepositoriesByRegistry me
      element =
      NodeBase.taskRoot
          { label := "Tasks",
            azureAccount := element.azureAccount,
            subscription := element.subscription,
            registry := element.registry } ::
        (getRepositoriesByRegistry element.registry).map (fun repository =>
          NodeBase.azureRepository repository.name
            (NodeBase.azureRegistry element) acct element.subscription
            element.registry element.label) := by
    simp [AzureRegistryNode.getChildren, h]
  exact ⟨h1, by rw [h1]; simp⟩

/-- Witness for the registry-children theorem: a signed-in registry node
whose listing returns the repositories `app` and `base`, yielding three
children. -/
theorem registry_children_structure_wit :
    AzureRegistryNode.getChildren
        (fun r => [{ name := "app", registry := r },
                   { name := "base", registry := r }])
        { label := "regA", azureAccount := some { accountId := "acct" },
          registry := { name := "regA", loginServer := "rega.azurecr.io" },
          subscription := { subscriptionId := "sub" } }
        { label := "regA", azureAccount := some { accountId := "acct" },
          registry := { name := "regA", loginServer := "rega.azurecr.io" },
          subscription := { subscriptionId := "sub" } } =
      NodeBase.taskRoot
          { label := "Tasks",
            azureAccount := some { accountId := "acct" },
            subscription := { subscriptionId := "sub" },
            registry := { name := "regA",
                          loginServer := "rega.azurecr.io" } } ::
        (([{ name := "app",
             registry := { name := "regA",
                           loginServer := "rega.azurecr.io" } },
           { name := "base",
             registry := { name := "regA",
                           loginServer := "rega.azurecr.io" } }] :
            List Repository).map
          (fun repository =>
            NodeBase.azureRepository repository.name
              (NodeBase.azureRegistry
                { label := "regA",
                  azureAccount := some { accountId := "acct" },
                  registry := { name := "regA",
                                loginServer := "rega.azurecr.io" },
                  subscription := { subscriptionId := "sub" } })
              { accountId := "acct" } { subscriptionId := "sub" }
              { name := "regA", loginServer := "rega.azurecr.io" }
              ("regA"))) ∧
    (AzureRegistryNode.getChildren
        (fun r => [{ name := "app", registry := r },
                   { name := "base", registry := r }])
        { label := "regA", azureAccount := some { accountId := "acct" },
          registry := { name := "regA", loginServer := "rega.azurecr.io" },
          subscription := { subscriptionId := "sub" } }
        { label := "regA", azureAccount := some { accountId := "acct" },
          registry := { name := "regA", loginServer := "rega.azurecr.io" },
          subscription := { subscriptionId := "sub" } }).length = 3 :=
  registry_children_structure
    (fun r => [{ name := "app", registry := r },
               { name := "base", registry := r }])
    { label := "regA", azureAccount := some { accountId := "acct" },
      registry := { name := "regA", loginServer := "rega.azurecr.io" },
      subscription := { subscriptionId := "sub" } }
    { label := "regA", azureAccount := some { accountId := "acct" },
      registry := { name := "regA", loginServer := "rega.azurecr.io" },
      subscription := { subscriptionId := "sub" } }
    { accountId := "acct" } rfl

/-- C6: with no account/session (`azureAccount` falsy on the receiver),
`AzureRegistryNode.getChildren` returns the empty list — in particular the
task-root node is not among the children and nothing is thrown. -/
theorem registry_children_noSession
    (getRepositoriesByRegistry : Registry → List Repository)
    (me element : AzureRegistryNode) (h : me.azureAccount = none) :
    AzureRegistryNode.getChildren getRepositoriesByRegistry me element =
      [] := by
  simp [AzureRegistryNode.getChildren, h]

/-- Witness for the no-session theorem: a signed-out registry node yields
no children. -/
theorem registry_children_noSession_wit :
    AzureRegistryNode.getChildren (fun _ => [])
        { label := "regA", azureAccount := none,
          registry := { name := "regA", loginServer := "rega.azurecr.io" },
          subscription := { subscriptionId := "sub" } }
        { label := "regA", azureAccount := none,
          registry := { name := "regA", loginServer := "rega.azurecr.io" },
          subscription := { subscriptionId := "sub" } } = [] :=
  registry_children_noSession (fun _ => [])
    { label := "regA", azureAccount := none,
      registry := { name := "regA", loginServer := "rega.azurecr.io" },
      subscription := { subscriptionId := "sub" } }
    { label := "regA", azureAccount := none,
      registry := { name := "regA", loginServer := "rega.azurecr.io" },
      subscription := { subscriptionId := "sub" } } rfl

/-- C7: a repository node's children are exactly one image-tag node per
image returned by the listing collaborator for the repository handle
resolved from the node's label, in return order; each child's label is the
image's `repositoryName:tag`. -/
theorem repository_children_images
    (RepositoryCreate : Registry → String → Repository)
    (getImagesByRepository : Repository → List AzureImage)
    (label : String) (parent : NodeBase) (acct : AzureAccount)
    (sub : Subscription) (registry : Registry) (repositoryName : String) :
    AzureRepositoryNode.getChildren RepositoryCreate getImagesByRepository
        (NodeBase.azureRepository label parent acct sub registry
          repositoryName) =
      (getImagesByRepository (RepositoryCreate registry label)).map
        (fun img => NodeBase.azureImageTag acct
          (NodeBase.azureRepository label parent acct sub registry
            repositoryName)
          img.subscription img.registry (getLoginServer img.registry)
          img.repository.name img.tag img.created) ∧
    (AzureRepositoryNode.getChildren RepositoryCreate getImagesByRepository
        (NodeBase.azureRepository label parent acct sub registry
          repositoryName)).length =
      (getImagesByRepository (RepositoryCreate registry label)).length ∧
    (AzureRepositoryNode.getChildren RepositoryCreate getImagesByRepository
        (NodeBase.azureRepository label parent acct sub registry
          repositoryName)).map NodeBase.labelOf =
      (getImagesByRepository (RepositoryCreate registry label)).map
        (fun img => img.repository.name ++ ":" ++ img.tag) := by
  refine ⟨rfl, ?_, ?_⟩
  · simp [AzureRepositoryNode.getChildren]
  · simp [AzureRepositoryNode.getChildren, NodeBase.labelOf,
      getImageNameWithTag, Function.comp]

/-- C8: an image-tag node's tree item is never expandable and its label is
the node's `repository:tag` label decorated by the external `formatTag`
collaborator with the image's creation time. -/
theorem imageTag_treeItem (imagesPath : String)
    (formatTag : String → DateJs → String) (acct : AzureAccount)
    (parent : NodeBase) (sub : Subscription) (registry : Registry)
    (serverUrl : String) (repositoryName : String) (tag : String)
    (created : DateJs) :
    NodeBase.getTreeItem imagesPath formatTag
        (NodeBase.azureImageTag acct parent sub registry serverUrl
          repositoryName tag created) =
      (some { label := formatTag
                (NodeBase.labelOf (NodeBase.azureImageTag acct parent sub
                  registry serverUrl repositoryName tag created)) created,
              collapsibleState := TreeItemCollapsibleState.none,
              contextValue := some ("azureImageTagNode") },
        NodeBase.azureImageTag acct parent sub registry serverUrl
          repositoryName tag created) ∧
    NodeBase.labelOf (NodeBase.azureImageTag acct parent sub registry
        serverUrl repositoryName tag created) =
      repositoryName ++ ":" ++ tag := by
  exact ⟨rfl, rfl⟩

/-- C9: `getTreeItem` is pure on every node kind — in state-passing form it
returns the receiver with every field unchanged; no method of the file
assigns to a node field (in the source only `AzureRepositoryNode.parent`
even lacks `readonly`, and nothing under src writes it). -/
theorem getTreeItem_frame (imagesPath : String)
    (formatTag : String → DateJs → String) (n : NodeBase) :
    (NodeBase.getTreeItem imagesPath formatTag n).2 = n := by
  cases n <;> rfl

end VsDocker
